import Mathlib

/-!
# sensorNetworks: screen-element registry, touch dispatch and chat input buffer

A shallow embedding of `piInterface/libs/interface.c` and of the input-line
handling of `nrfTest/src/nrfChat.c`, followed by the properties proved about
them.

Conventions of the embedding

* C integers are `Nat`/`Int` values; every conversion that can lose
  information is written out (`% 256`, `toInt32`, `toShort`, `toUInt32`).
  Parameters of type `uint8_t`/`uint32_t` are `Fin 256`/`Fin (2 ^ 32)`.
* A function with side effects returns the list of effects it performs, in
  program order, next to its result.
* A pointer that may be `NULL` is an `Option`; dereferencing `none` and
  indexing an array outside its allocation give no result (`none`).
* The loops of `interface.c` count with a `uint8_t`; they are embedded with a
  fuel argument, one unit per evaluation of the loop condition.
-/

namespace SensorNetworks

/-! ## ncurses windows (external library) -/

/-- The fields of the ncurses `WINDOW` record that `interface.c` reads.
In ncurses `_begy, _begx` are the screen coordinates of the upper-left corner
and `_maxy, _maxx` are the largest row and column index inside the window
(`curses.h`: "maximums of x and y, NOT window size"). -/
structure WINDOW where
  _begy : Int
  _begx : Int
  _maxy : Int
  _maxx : Int
deriving DecidableEq, Repr

/-- Conversion of an integer to `short` (`NCURSES_SIZE_T`), two's complement. -/
def toShort (n : Int) : Int := (n + 32768) % 65536 - 32768

/-- Conversion of a `uint32_t` argument to an `int` parameter. -/
def toInt32 (n : Nat) : Int := if n < 2147483648 then (n : Int) else (n : Int) - 4294967296

/-- Conversion of an integer result to `uint32_t`. -/
def toUInt32 (n : Int) : Nat := (n % 4294967296).toNat

/-- What `newwin` depends on besides its arguments: whether curses has a
screen and memory for one more window, and the size of the terminal. -/
structure Terminal where
  ready : Bool
  lines : Int
  columns : Int
deriving DecidableEq, Repr

/-- The ncurses call `newwin(nlines, ncols, begin_y, begin_x)`. It returns no
window for a negative argument, without a screen or without memory; a zero
size stands for "up to the edge of the terminal"; the record of the new window
gets `_maxy = nlines - 1`, `_maxx = ncols - 1` and the origin, all stored as
`short`. -/
def newwin (t : Terminal) (num_lines num_columns begy begx : Int) : Option WINDOW :=
  if begy < 0 ∨ begx < 0 ∨ num_lines < 0 ∨ num_columns < 0 ∨ t.ready = false then none
  else
    let num_lines := if num_lines = 0 then t.lines - begy else num_lines
    let num_columns := if num_columns = 0 then t.columns - begx else num_columns
    if num_lines ≤ 0 ∨ num_columns ≤ 0 then none
    else some
      { _begy := toShort begy
        _begx := toShort begx
        _maxy := toShort (num_lines - 1)
        _maxx := toShort (num_columns - 1) }

/-- The ncurses accessor `getbegy(win)`: `ERR` (-1) for a null window. -/
def getbegy (win : Option WINDOW) : Int :=
  match win with
  | some w => w._begy
  | none => -1

/-- The ncurses accessor `getbegx(win)`: `ERR` (-1) for a null window. -/
def getbegx (win : Option WINDOW) : Int :=
  match win with
  | some w => w._begx
  | none => -1

/-! ## Screen elements and screens -/

/-- The functions used as click callbacks: the four of the program and any
other function, named by its address. -/
inductive ClickCallback where
  | friendListClick
  | resetButtonPressed
  | shutdownButtonPressed
  | switchScreenButtonPressed
  | other (addr : Nat)
deriving DecidableEq, Repr

/-- The functions used as init/redraw callbacks. -/
inductive InitCallback where
  | printFriendListWindow
  | initTouchCoords
  | drawButton
  | other (addr : Nat)
deriving DecidableEq, Repr

/-- The record `screenElement_t`: a window and two optional callbacks
(`none` is the null pointer). -/
structure screenElement_t where
  window : Option WINDOW
  clickCallback : Option ClickCallback
  initCallback : Option InitCallback
deriving DecidableEq, Repr

instance : Inhabited screenElement_t := ⟨⟨none, none, none⟩⟩

/-- The record `screen_t`: the heap array `elements` (the list is the
allocated block) and the counter `elementCount`. -/
structure screen_t where
  elements : List screenElement_t
  elementCount : Nat
deriving DecidableEq, Repr

/-- A zero-initialised screen, as in `static screen_t debugScreen = {0}`. -/
def freshScreen : screen_t := { elements := [], elementCount := 0 }

/-- The block returned by `realloc(p, n * sizeof elem)`: the first `n` cells
of the old block, followed by cells without a defined content when the block
grows. -/
def realloc (block : List screenElement_t) (n : Nat) : List screenElement_t :=
  block.take n ++ List.replicate (n - block.length) default

/-- The function `addScreenElement`. The block is resized to
`elementCount + 1` cells, the cell at index `elementCount` gets the window
returned by `newwin` and the two callbacks, and the counter is incremented.
The result of `newwin` is stored unchecked. `countBits` is the width of the
field `elementCount`, declared in `interface.h`, which is not among the
sources. Returns the screen after the call and the element returned by value
(the cell at index `elementCount - 1` after the increment; no result when
that index is outside the block). -/
def addScreenElement (countBits : Nat) (t : Terminal) (screen : screen_t)
    (startRow startCol : Fin 4294967296) (height width : Fin 256)
    (clickCallback : Option ClickCallback) (initCallback : Option InitCallback) :
    screen_t × Option screenElement_t :=
  let block := realloc screen.elements (screen.elementCount + 1)
  let element : screenElement_t :=
    { window := newwin t height.val width.val (toInt32 startRow.val) (toInt32 startCol.val)
      clickCallback := clickCallback
      initCallback := initCallback }
  let block := block.set screen.elementCount element
  let count := (screen.elementCount + 1) % 2 ^ countBits
  ({ elements := block, elementCount := count },
    if count = 0 then none else block[count - 1]?)

/-- The touch sample `RPiTouch_Touch_t`: row, column and the pressed flag.
The record is declared in `rpitouch.h`, an external library; the fields hold
integer values and are compared and subtracted as such. -/
structure RPiTouch_Touch_t where
  nRow : Int
  nCol : Int
  bButton : Nat
deriving DecidableEq, Repr

/-- The function `isButtonTouched`: the point is inside the window, edges
included. No result when the window pointer is null. -/
def isButtonTouched (button : screenElement_t) (touchPoint : RPiTouch_Touch_t) : Option Bool :=
  match button.window with
  | none => none
  | some w =>
    some (decide (touchPoint.nCol ≥ w._begx)
      && decide (touchPoint.nCol ≤ w._begx + w._maxx)
      && decide (touchPoint.nRow ≥ w._begy)
      && decide (touchPoint.nRow ≤ w._begy + w._maxy))

/-- One registration request: the arguments of one `addScreenElement` call. -/
structure Registration where
  startRow : Fin 4294967296
  startCol : Fin 4294967296
  height : Fin 256
  width : Fin 256
  clickCallback : Option ClickCallback
  initCallback : Option InitCallback
deriving DecidableEq, Repr

/-- The element a registration request describes. -/
def Registration.element (t : Terminal) (r : Registration) : screenElement_t :=
  { window := newwin t r.height.val r.width.val (toInt32 r.startRow.val) (toInt32 r.startCol.val)
    clickCallback := r.clickCallback
    initCallback := r.initCallback }

/-- A sequence of `addScreenElement` calls on one screen, in the order of the
list. -/
def addScreenElements (countBits : Nat) (t : Terminal) (screen : screen_t)
    (reqs : List Registration) : screen_t :=
  reqs.foldl
    (fun s r =>
      (addScreenElement countBits t s r.startRow r.startCol r.height r.width
        r.clickCallback r.initCallback).1)
    screen

/-! ## Effects -/

/-- The scripts started with `system`. -/
inductive Script where
  | reloadProgram
  | shutdown
deriving DecidableEq, Repr

/-- The observable actions of `interface.c`, one constructor per call that
leaves the module. -/
inductive Effect where
  | endwin
  | clear
  | refresh
  | wrefresh (win : Option WINDOW)
  | initCall (cb : InitCallback) (win : Option WINDOW)
  | windowTouched (i : Nat)
  | clickCall (cb : ClickCallback) (row col : Nat)
  | enterCheckTouchedButtons (touchPoint : RPiTouch_Touch_t)
  | printCoords (win : Option WINDOW) (row col : Int)
  | handleNewByte (inByte : Nat)
  | serialPutChar (c : Char)
  | serialGetChar (ret : Nat)
  | exitUartStream
  | stderrProgramEnded
  | stdoutCya
  | exit (status : Int)
  | system (script : Script)
deriving DecidableEq, Repr

/-- The C constant `EXIT_FAILURE`. -/
def EXIT_FAILURE : Int := 1

/-- A loop `for (uint8_t i = ...; i < n; i++) body(i)`, started at index `i`.
One unit of fuel is used per evaluation of the condition; the index is
incremented modulo 256. No result when the fuel runs out or the body has no
result. -/
def forUInt8 (n : Nat) (body : Nat → Option (List Effect)) : Nat → Nat → Option (List Effect)
  | 0, _ => none
  | fuel + 1, i =>
    if i < n then
      match body i with
      | none => none
      | some tr => (forUInt8 n body fuel ((i + 1) % 256)).map (fun rest => tr ++ rest)
    else some []

/-- Fuel for a `uint8_t` loop: a loop that ends evaluates its condition at
most 256 times. -/
def loopFuel : Nat := 257

/-- The body of the loop of `drawScreen` for a cell of the block. -/
def drawElement (e : screenElement_t) : List Effect :=
  (match e.initCallback with
    | some cb => [Effect.initCall cb e.window]
    | none => []) ++ [Effect.wrefresh e.window]

/-- The function `drawScreen`: for each index below `elementCount`, the init
callback when it is not null, then `wrefresh` of the window. -/
def drawScreen (screen : screen_t) : Option (List Effect) :=
  forUInt8 screen.elementCount
    (fun i => (screen.elements[i]?).map drawElement)
    loopFuel 0

/-- The body of the loop of `checkTouchedButtons` for a cell of the block:
when the click callback is not null and the element is touched, the log line
and the call of the callback with the coordinates relative to the window,
converted to `uint32_t`. -/
def touchElement (i : Nat) (e : screenElement_t) (touchPoint : RPiTouch_Touch_t) :
    Option (List Effect) :=
  match e.clickCallback with
  | none => some []
  | some cb =>
    match isButtonTouched e touchPoint with
    | none => none
    | some false => some []
    | some true =>
      some [Effect.windowTouched i,
        Effect.clickCall cb
          (toUInt32 (touchPoint.nRow - getbegy e.window))
          (toUInt32 (touchPoint.nCol - getbegx e.window))]

/-- The function `checkTouchedButtons`: the calls made for the touch point,
in the order of the loop. The callbacks themselves are run by the caller of
this definition (`runCallbacks`): the screen and the touch point are passed
by value and no callback of the program writes to the block, so the loop does
not depend on what a callback does. -/
def checkTouchedButtons (screen : screen_t) (touchPoint : RPiTouch_Touch_t) :
    Option (List Effect) :=
  forUInt8 screen.elementCount
    (fun i => (screen.elements[i]?).bind (fun e => touchElement i e touchPoint))
    loopFuel 0

/-! ## Mode switch, poll loop and shutdown -/

/-- The function `switchScreenButtonPressed`, on the flag `debugMode`: when
the flag is set, clear and refresh the display and reset the flag; otherwise
nothing. -/
def switchScreenButtonPressed (debugMode : Nat) (_row _col : Nat) : Nat × List Effect :=
  if debugMode ≠ 0 then (0, [Effect.clear, Effect.refresh]) else (debugMode, [])

/-- The loop `while (serialGetChar(&inByte) == 0);` of `endInterface`, on the
return values the serial driver gives to the successive calls. The flag is
`true` when a call returned a non-zero value, which ends the loop, and
`false` when the loop is still reading after the last listed answer. -/
def drainSerial : List Nat → List Effect × Bool
  | [] => ([], false)
  | ret :: rest =>
    if ret = 0 then
      let r := drainSerial rest
      (Effect.serialGetChar ret :: r.1, r.2)
    else ([Effect.serialGetChar ret], true)

/-- The function `endInterface`, on the return values of the successive
`serialGetChar` calls: the effects of the handler up to the exit, or up to
the last listed answer of the serial driver when all of them were 0. -/
def endInterface (_idk : Int) (reads : List Nat) : List Effect :=
  let r := drainSerial reads
  [Effect.endwin, Effect.serialPutChar 'e'] ++ r.1 ++
    (if r.2 then
      [Effect.exitUartStream, Effect.stderrProgramEnded, Effect.stdoutCya,
        Effect.exit EXIT_FAILURE]
    else [])

/-! ## Chat input line (`nrfChat.c`) -/

/-- The constant `INPUT_BUFFER_LENGTH`. -/
def INPUT_BUFFER_LENGTH : Nat := 38

/-- The array `inputBuffer` (38 cells) and the offset `bufferPtr - inputBuffer`. -/
structure ChatState where
  inputBuffer : List Nat
  bufferPtr : Nat
deriving DecidableEq, Repr

/-- The state at program start: the array is zero-initialised and `bufferPtr`
points at its first cell. -/
def ChatState.init : ChatState :=
  { inputBuffer := List.replicate INPUT_BUFFER_LENGTH 0, bufferPtr := 0 }

/-- The string that starts at an offset of the array: the characters before
the first zero byte. No result when the array holds no zero byte from there
on. -/
def cString (mem : List Nat) (start : Nat) : Option (List Nat) :=
  let rest := mem.drop start
  if rest.contains 0 then some (rest.takeWhile (fun c => c ≠ 0)) else none

/-- The actions of the input-line code: a store into `inputBuffer` at an
index, the three kinds of terminal output, and the two calls that take the
finished line. -/
inductive ChatEffect where
  | store (index : Nat) (value : Nat)
  | eraseEcho
  | newline
  | echo (c : Nat)
  | runCommand (command : Option (List Nat))
  | send (command : Option (List Nat))
deriving DecidableEq, Repr

/-- The function `interpretNewChar`. Characters are byte values: backspace 8, carriage
return 13, space 32, tilde 126, slash 47. A store at an index outside the
array is recorded and leaves the array as it is. -/
def interpretNewChar (s : ChatState) (newChar : Nat) : ChatState × List ChatEffect :=
  if newChar = 8 then
    if s.bufferPtr ≠ 0 then
      ({ s with bufferPtr := s.bufferPtr - 1 }, [ChatEffect.eraseEcho])
    else (s, [])
  else if newChar = 13 then
    let buf := s.inputBuffer.set s.bufferPtr 0
    let call :=
      if buf.getD 0 0 = 47 then ChatEffect.runCommand (cString buf 1)
      else ChatEffect.send (cString buf 0)
    ({ inputBuffer := buf, bufferPtr := 0 },
      [ChatEffect.store s.bufferPtr 0, ChatEffect.newline, call])
  else if 32 ≤ newChar ∧ newChar ≤ 126
      ∧ (s.bufferPtr < 31 ∨ s.inputBuffer.getD 0 0 = 47)
      ∧ s.bufferPtr < INPUT_BUFFER_LENGTH then
    ({ inputBuffer := s.inputBuffer.set s.bufferPtr newChar, bufferPtr := s.bufferPtr + 1 },
      [ChatEffect.store s.bufferPtr newChar, ChatEffect.echo newChar])
  else (s, [])

/-- The function `getCurrentInputBuffer`: stores the terminating zero at `bufferPtr` and
returns the line. -/
def getCurrentInputBuffer (s : ChatState) : ChatState × List ChatEffect × Option (List Nat) :=
  let buf := s.inputBuffer.set s.bufferPtr 0
  ({ s with inputBuffer := buf }, [ChatEffect.store s.bufferPtr 0], cString buf 0)

/-- Feeds a sequence of characters to `interpretNewChar`, one at a time. -/
def interpretChars (s : ChatState) : List Nat → ChatState × List ChatEffect
  | [] => (s, [])
  | c :: rest =>
    let r := interpretNewChar s c
    let r2 := interpretChars r.1 rest
    (r2.1, r.2 ++ r2.2)

/-- The indices of the stores into `inputBuffer` in a trace. -/
def storeIndices : List ChatEffect → List Nat
  | [] => []
  | ChatEffect.store index _ :: rest => index :: storeIndices rest
  | _ :: rest => storeIndices rest

/-! ## The chat line: what the editor takes, and what is keyed in -/

/-- The rectangle of a window contains a point, both edges included: rows
`_begy .. _begy + _maxy`, columns `_begx .. _begx + _maxx`. -/
def WINDOW.contains (w : WINDOW) (p : RPiTouch_Touch_t) : Prop :=
  w._begy ≤ p.nRow ∧ p.nRow ≤ w._begy + w._maxy
    ∧ w._begx ≤ p.nCol ∧ p.nCol ≤ w._begx + w._maxx

instance (w : WINDOW) (p : RPiTouch_Touch_t) : Decidable (w.contains p) := by
  unfold WINDOW.contains
  infer_instance

/-- Every registered element with a click callback has a window. -/
def screen_t.windowsPresent (s : screen_t) : Bool :=
  (s.elements.take s.elementCount).all
    (fun e => e.clickCallback.isNone || e.window.isSome)

/-- Dispatch as the specification words it: going through the indices
`0 .. elementCount - 1` in order, every element with a click callback whose
rectangle contains the point gets one call, with the point relative to the
origin of the window; the other elements get none. -/
def expectedCalls (s : screen_t) (p : RPiTouch_Touch_t) : List Effect :=
  (List.range s.elementCount).flatMap (fun i =>
    match s.elements[i]? with
    | some e =>
      match e.clickCallback, e.window with
      | some cb, some w =>
        if w.contains p then
          [Effect.windowTouched i,
            Effect.clickCall cb (toUInt32 (p.nRow - w._begy)) (toUInt32 (p.nCol - w._begx))]
        else []
      | _, _ => []
    | none => [])

/-- Rendering as the specification words it: going through the indices
`0 .. elementCount - 1` in order, for each element the init callback with
the window of the element when the callback is present, then the flush of
that window. -/
def expectedDraw (s : screen_t) : List Effect :=
  (List.range s.elementCount).flatMap (fun i =>
    match s.elements[i]? with
    | some e =>
      match e.initCallback with
      | some cb => [Effect.initCall cb e.window, Effect.wrefresh e.window]
      | none => [Effect.wrefresh e.window]
    | none => [])

/-- The indices in the log lines of a dispatch trace: one line is written
right before each call of a click callback. -/
def calledIndices : List Effect → List Nat
  | [] => []
  | Effect.windowTouched i :: rest => i :: calledIndices rest
  | _ :: rest => calledIndices rest

/-- The element at an index has a click callback and a window whose
rectangle contains the point. -/
def screen_t.matchesAt (s : screen_t) (p : RPiTouch_Touch_t) (i : Nat) : Bool :=
  match s.elements[i]? with
  | some e =>
    match e.clickCallback, e.window with
    | some _, some w => decide (w.contains p)
    | _, _ => false
  | none => false

/-- A terminal of 30 lines and 100 columns on which curses is running. -/
def exampleTerminal : Terminal := { ready := true, lines := 30, columns := 100 }

/-- Element A at origin (0,0) and element B at origin (2,4), both 4 rows by
8 columns, registered in that order on a fresh screen, each with a click
callback of its own that is not one of the program. -/
def overlapScreen : screen_t :=
  addScreenElements 8 exampleTerminal freshScreen
    [{ startRow := 0, startCol := 0, height := 4, width := 8,
       clickCallback := some (ClickCallback.other 0), initCallback := none },
     { startRow := 2, startCol := 4, height := 4, width := 8,
       clickCallback := some (ClickCallback.other 1), initCallback := none }]

/-- A registration request used in the examples: 4 rows by 8 columns at
the origin of the display, without callbacks. -/
def plainRegistration : Registration :=
  { startRow := 0, startCol := 0, height := 4, width := 8,
    clickCallback := none, initCallback := none }

/-- A terminal on which curses cannot create a window. -/
def unreadyTerminal : Terminal := { ready := false, lines := 30, columns := 100 }

/-- A command of 38 characters: the slash and 37 times the letter A. -/
def longCommand : List Nat := 47 :: List.replicate 37 65

/-- The command of 38 characters followed by a carriage return. -/
def longCommandLine : List Nat := longCommand ++ [13]

/-- The debug screen as `initInterface` registers it: seven elements, with
the arguments of the seven `addScreenElement` calls. -/
def initInterfaceScreen : screen_t :=
  addScreenElements 8 exampleTerminal freshScreen
    [{ startRow := 0, startCol := 1, height := 15, width := 64,
       clickCallback := none, initCallback := none },
     { startRow := 16, startCol := 1, height := 15, width := 64,
       clickCallback := none, initCallback := none },
     { startRow := 7, startCol := 68, height := 10, width := 30,
       clickCallback := some ClickCallback.friendListClick,
       initCallback := some InitCallback.printFriendListWindow },
     { startRow := 4, startCol := 92, height := 3, width := 8,
       clickCallback := none, initCallback := some InitCallback.initTouchCoords },
     { startRow := 0, startCol := 92, height := 4, width := 8,
       clickCallback := some ClickCallback.resetButtonPressed,
       initCallback := some InitCallback.drawButton },
     { startRow := 26, startCol := 92, height := 4, width := 8,
       clickCallback := some ClickCallback.shutdownButtonPressed,
       initCallback := some InitCallback.drawButton },
     { startRow := 0, startCol := 84, height := 4, width := 8,
       clickCallback := some ClickCallback.switchScreenButtonPressed,
       initCallback := some InitCallback.drawButton }]

/-! ## Lemmas on the loops -/

theorem forUInt8_eq (n : Nat) (body : Nat → Option (List Effect)) (f : Nat → List Effect)
    (hn : n ≤ 255) (hbody : ∀ j, j < n → body j = some (f j)) :
    ∀ (k fuel i : Nat), i + k = n → k < fuel →
      forUInt8 n body fuel i = some ((List.range' i k).flatMap f) := by
  intro k
  induction k with
  | zero =>
    intro fuel i hi hf
    obtain ⟨fuel, rfl⟩ : ∃ m, fuel = m + 1 := ⟨fuel - 1, by omega⟩
    have hlt : ¬ i < n := by omega
    simp [forUInt8, hlt]
  | succ k ih =>
    intro fuel i hi hf
    obtain ⟨fuel, rfl⟩ : ∃ m, fuel = m + 1 := ⟨fuel - 1, by omega⟩
    have hlt : i < n := by omega
    have hmod : (i + 1) % 256 = i + 1 := Nat.mod_eq_of_lt (by omega)
    have hrec := ih fuel (i + 1) (by omega) (by omega)
    simp [forUInt8, hlt, hbody i hlt, hmod, hrec, List.range'_succ]

theorem forUInt8_from_zero (n : Nat) (body : Nat → Option (List Effect))
    (f : Nat → List Effect) (hn : n ≤ 255) (hbody : ∀ j, j < n → body j = some (f j)) :
    forUInt8 n body loopFuel 0 = some ((List.range n).flatMap f) := by
  rw [List.range_eq_range']
  exact forUInt8_eq n body f hn hbody n loopFuel 0 (by omega) (by unfold loopFuel; omega)

/-- A `uint8_t` loop over 256 or more cells never ends: whatever the fuel,
there is no result. -/
theorem forUInt8_diverges (n : Nat) (body : Nat → Option (List Effect)) (hn : 256 ≤ n) :
    ∀ (fuel i : Nat), i < 256 → forUInt8 n body fuel i = none := by
  intro fuel
  induction fuel with
  | zero => intro i _; rfl
  | succ fuel ih =>
    intro i hi
    have hlt : i < n := by omega
    have hrec := ih ((i + 1) % 256) (Nat.mod_lt _ (by omega))
    cases hb : body i <;> simp [forUInt8, hlt, hb, hrec]

theorem isButtonTouched_window (e : screenElement_t) (w : WINDOW) (p : RPiTouch_Touch_t)
    (hw : e.window = some w) : isButtonTouched e p = some (decide (w.contains p)) := by
  unfold isButtonTouched WINDOW.contains
  rw [hw]
  simp only [Option.some.injEq, ge_iff_le]
  by_cases h1 : w._begx ≤ p.nCol <;> by_cases h2 : p.nCol ≤ w._begx + w._maxx <;>
    by_cases h3 : w._begy ≤ p.nRow <;> by_cases h4 : p.nRow ≤ w._begy + w._maxy <;>
    simp [h1, h2, h3, h4]

theorem mem_take_of_getElem (l : List screenElement_t) (n j : Nat) (e : screenElement_t)
    (hj : j < n) (he : l[j]? = some e) : e ∈ l.take n := by
  have h : (l.take n)[j]? = some e := by
    rw [List.getElem?_take]
    simp [hj, he]
  exact List.getElem?_mem h

theorem touchElement_eq (s : screen_t) (p : RPiTouch_Touch_t)
    (hlen : s.elementCount ≤ s.elements.length) (hwin : s.windowsPresent = true)
    (j : Nat) (hj : j < s.elementCount) :
    (s.elements[j]?).bind (fun e => touchElement j e p) =
      some (match s.elements[j]? with
        | some e =>
          match e.clickCallback, e.window with
          | some cb, some w =>
            if w.contains p then
              [Effect.windowTouched j,
                Effect.clickCall cb (toUInt32 (p.nRow - w._begy)) (toUInt32 (p.nCol - w._begx))]
            else []
          | _, _ => []
        | none => []) := by
  have hjl : j < s.elements.length := by omega
  have he : s.elements[j]? = some s.elements[j] := List.getElem?_eq_getElem hjl
  have hmem := mem_take_of_getElem s.elements s.elementCount j _ hj he
  have hp := List.all_eq_true.mp hwin _ hmem
  rw [he]
  generalize s.elements[j] = e at hp
  obtain ⟨win, click, init⟩ := e
  cases click with
  | none => simp [touchElement]
  | some cb =>
    cases win with
    | none => simp at hp
    | some w =>
      simp only [Option.some_bind, touchElement]
      rw [isButtonTouched_window _ w p rfl]
      by_cases hc : w.contains p <;> simp [hc, getbegy, getbegx]

/-! ## Lemmas on registration -/

theorem realloc_length (block : List screenElement_t) (n : Nat) :
    (realloc block n).length = n := by
  unfold realloc
  simp only [List.length_append, List.length_take, List.length_replicate]
  omega

theorem realloc_of_length (block : List screenElement_t) :
    realloc block (block.length + 1) = block ++ [default] := by
  unfold realloc
  simp [List.take_of_length_le]

theorem addScreenElement_cell (countBits : Nat) (t : Terminal) (screen : screen_t)
    (startRow startCol : Fin 4294967296) (height width : Fin 256)
    (click : Option ClickCallback) (init : Option InitCallback) :
    (addScreenElement countBits t screen startRow startCol height width
      click init).1.elements[screen.elementCount]? =
      some (Registration.element t ⟨startRow, startCol, height, width, click, init⟩) := by
  simp only [addScreenElement, Registration.element]
  rw [List.getElem?_set_self]
  rw [realloc_length]
  omega

theorem newwin_ok (t : Terminal) (startRow startCol : Fin 4294967296) (height width : Fin 256)
    (hready : t.ready = true) (hh : 1 ≤ height.val) (hw : 1 ≤ width.val)
    (hr : startRow.val ≤ 32767) (hc : startCol.val ≤ 32767) :
    newwin t height.val width.val (toInt32 startRow.val) (toInt32 startCol.val) =
      some { _begy := startRow.val, _begx := startCol.val,
             _maxy := (height.val : Int) - 1, _maxx := (width.val : Int) - 1 } := by
  have h1 : toInt32 startRow.val = (startRow.val : Int) := by
    unfold toInt32
    rw [if_pos (by omega)]
  have h2 : toInt32 startCol.val = (startCol.val : Int) := by
    unfold toInt32
    rw [if_pos (by omega)]
  have hhl := height.isLt
  have hwl := width.isLt
  unfold newwin
  rw [h1, h2]
  rw [if_neg (by simp [hready])]
  simp only
  rw [if_neg (by omega), if_neg (by omega), if_neg (by omega)]
  simp only [toShort, Option.some.injEq, WINDOW.mk.injEq]
  omega

/-! ## Hit test (C1) -/

/-- C1, as the code has it: for an element created by `addScreenElement` with
height and width at least 1, at an origin that fits the `short` fields of a
window, on a terminal where `newwin` succeeds, the hit test has a result, and
it is true exactly for the points
with `startRow ≤ row ≤ startRow + height - 1` and
`startCol ≤ col ≤ startCol + width - 1`: both edges are included, and the far
edge is the last row and column of the window. -/
theorem C1_isButtonTouched_iff (countBits : Nat) (t : Terminal) (screen : screen_t)
    (startRow startCol : Fin 4294967296) (height width : Fin 256)
    (click : Option ClickCallback) (init : Option InitCallback) (p : RPiTouch_Touch_t)
    (hready : t.ready = true) (hh : 1 ≤ height.val) (hw : 1 ≤ width.val)
    (hr : startRow.val ≤ 32767) (hc : startCol.val ≤ 32767) :
    ∃ e, (addScreenElement countBits t screen startRow startCol height width
          click init).1.elements[screen.elementCount]? = some e
      ∧ (isButtonTouched e p).isSome = true
      ∧ (isButtonTouched e p = some true ↔
          ((startRow.val : Int) ≤ p.nRow
            ∧ p.nRow ≤ (startRow.val : Int) + (height.val : Int) - 1
            ∧ (startCol.val : Int) ≤ p.nCol
            ∧ p.nCol ≤ (startCol.val : Int) + (width.val : Int) - 1)) := by
  refine ⟨_,
    addScreenElement_cell countBits t screen startRow startCol height width click init,
    ?_, ?_⟩
  · rw [isButtonTouched_window _ _ p
      (by simp only [Registration.element]; exact newwin_ok t _ _ _ _ hready hh hw hr hc)]
    rfl
  · rw [isButtonTouched_window _ _ p
      (by simp only [Registration.element]; exact newwin_ok t _ _ _ _ hready hh hw hr hc)]
    simp only [Option.some.injEq, decide_eq_true_eq, WINDOW.contains]
    constructor <;> intro h <;> omega

/-- C1, an instance: element A of the example (origin (0,0), 4 rows by 8
columns) and the touch point (3,6). -/
theorem C1_isButtonTouched_iff_witness :
    ∃ e, (addScreenElement 8 exampleTerminal freshScreen 0 0 4 8
          (some (ClickCallback.other 0)) none).1.elements[freshScreen.elementCount]? = some e
      ∧ (isButtonTouched e ⟨3, 6, 1⟩).isSome = true
      ∧ (isButtonTouched e ⟨3, 6, 1⟩ = some true ↔
          ((((0 : Fin 4294967296).val : Nat) : Int) ≤ 3
            ∧ (3 : Int) ≤
                (((0 : Fin 4294967296).val : Nat) : Int) + (((4 : Fin 256).val : Nat) : Int) - 1
            ∧ (((0 : Fin 4294967296).val : Nat) : Int) ≤ 6
            ∧ (6 : Int) ≤
                (((0 : Fin 4294967296).val : Nat) : Int) + (((8 : Fin 256).val : Nat) : Int) - 1)) :=
  C1_isButtonTouched_iff 8 exampleTerminal freshScreen 0 0 4 8 (some (ClickCallback.other 0)) none
    ⟨3, 6, 1⟩ rfl (by decide) (by decide) (by decide) (by decide)

/-- C1 as claimed fails at the far edge: for element A of the example (origin
(0,0), 4 rows by 8 columns) the point (4,8) satisfies
`0 ≤ 4 ≤ 0 + 4` and `0 ≤ 8 ≤ 0 + 8`, and the hit test is false. -/
theorem C1_far_edge_counterexample :
    ∃ e, (addScreenElement 8 exampleTerminal freshScreen 0 0 4 8
          (some (ClickCallback.other 0)) none).2 = some e
      ∧ ((0 : Int) ≤ 4 ∧ (4 : Int) ≤ 0 + 4 ∧ (0 : Int) ≤ 8 ∧ (8 : Int) ≤ 0 + 8)
      ∧ isButtonTouched e ⟨4, 8, 1⟩ = some false :=
  ⟨_, rfl, by decide, by decide⟩

/-! ## Dispatch (C2, C3) -/

theorem calledIndices_append (a b : List Effect) :
    calledIndices (a ++ b) = calledIndices a ++ calledIndices b := by
  induction a with
  | nil => rfl
  | cons e a ih => cases e <;> simp [calledIndices, ih]

theorem calledIndices_flatMap (l : List Nat) (f : Nat → List Effect) (g : Nat → Bool)
    (h : ∀ i, calledIndices (f i) = if g i then [i] else []) :
    calledIndices (l.flatMap f) = l.filter g := by
  induction l with
  | nil => rfl
  | cons i l ih =>
    rw [List.flatMap_cons, calledIndices_append, ih, h i]
    cases hg : g i <;> simp [List.filter, hg]

theorem calledIndices_expectedCalls (s : screen_t) (p : RPiTouch_Touch_t) :
    calledIndices (expectedCalls s p) =
      (List.range s.elementCount).filter (fun i => s.matchesAt p i) := by
  unfold expectedCalls
  apply calledIndices_flatMap
  intro i
  unfold screen_t.matchesAt
  cases s.elements[i]? with
  | none => rfl
  | some e =>
    obtain ⟨win, click, init⟩ := e
    cases click <;> cases win <;> try rfl
    rename_i cb w
    by_cases hc : w.contains p <;> simp [hc, calledIndices]

theorem checkTouchedButtons_eq (s : screen_t) (p : RPiTouch_Touch_t)
    (hlen : s.elementCount ≤ s.elements.length) (hcnt : s.elementCount ≤ 255)
    (hwin : s.windowsPresent = true) :
    checkTouchedButtons s p = some (expectedCalls s p) := by
  unfold checkTouchedButtons expectedCalls
  exact forUInt8_from_zero _ _ _ hcnt (fun j hj => touchElement_eq s p hlen hwin j hj)

/-- C2: on a screen whose count is within its block and within the range of
the loop index, and whose elements with a click callback have a window, one
call of `checkTouchedButtons` ends and makes exactly the calls of
`expectedCalls`: going through the indices in order, one call for every
element with a click callback whose rectangle contains the point, none for
the others, without stopping at the first match. The indices served are
exactly the matching ones, each once, in increasing order. -/
theorem C2_checkTouchedButtons_calls (s : screen_t) (p : RPiTouch_Touch_t)
    (hlen : s.elementCount ≤ s.elements.length) (hcnt : s.elementCount ≤ 255)
    (hwin : s.windowsPresent = true) :
    checkTouchedButtons s p = some (expectedCalls s p)
      ∧ calledIndices (expectedCalls s p) =
          (List.range s.elementCount).filter (fun i => s.matchesAt p i) := by
  exact ⟨checkTouchedButtons_eq s p hlen hcnt hwin, calledIndices_expectedCalls s p⟩

/-- C2, an instance: on the example screen a touch at (4,8), outside A and
inside B, calls the callback of B only. -/
theorem C2_checkTouchedButtons_calls_witness :
    (overlapScreen.elementCount ≤ overlapScreen.elements.length
      ∧ overlapScreen.elementCount ≤ 255 ∧ overlapScreen.windowsPresent = true)
    ∧ (checkTouchedButtons overlapScreen ⟨4, 8, 1⟩ =
          some (expectedCalls overlapScreen ⟨4, 8, 1⟩)
      ∧ calledIndices (expectedCalls overlapScreen ⟨4, 8, 1⟩) =
          (List.range overlapScreen.elementCount).filter
            (fun i => overlapScreen.matchesAt ⟨4, 8, 1⟩ i))
    ∧ expectedCalls overlapScreen ⟨4, 8, 1⟩ =
        [Effect.windowTouched 1, Effect.clickCall (ClickCallback.other 1) 2 4] :=
  ⟨⟨by decide, by decide, by decide⟩,
    C2_checkTouchedButtons_calls overlapScreen ⟨4, 8, 1⟩ (by decide) (by decide) (by decide),
    by decide⟩

theorem addScreenElement_append (countBits : Nat) (t : Terminal) (screen : screen_t)
    (r : Registration) (hlen : screen.elements.length = screen.elementCount)
    (hcap : screen.elementCount + 1 < 2 ^ countBits) :
    (addScreenElement countBits t screen r.startRow r.startCol r.height r.width
      r.clickCallback r.initCallback).1 =
      { elements := screen.elements ++ [r.element t],
        elementCount := screen.elementCount + 1 } := by
  simp only [addScreenElement, Registration.element]
  rw [← hlen, realloc_of_length, Nat.mod_eq_of_lt (by omega)]
  simp

theorem addScreenElements_eq (countBits : Nat) (t : Terminal) :
    ∀ (reqs : List Registration) (screen : screen_t),
      screen.elements.length = screen.elementCount →
      screen.elementCount + reqs.length < 2 ^ countBits →
      addScreenElements countBits t screen reqs =
        { elements := screen.elements ++ reqs.map (Registration.element t),
          elementCount := screen.elementCount + reqs.length } := by
  intro reqs
  induction reqs with
  | nil => intro screen _ _; simp [addScreenElements]
  | cons r reqs ih =>
    intro screen hlen hcap
    simp only [List.length_cons] at hcap
    have hstep := addScreenElement_append countBits t screen r hlen (by omega)
    have hrec := ih
      { elements := screen.elements ++ [r.element t], elementCount := screen.elementCount + 1 }
      (by simp [hlen]) (by simp only; omega)
    simp only [addScreenElements, List.foldl_cons] at hrec ⊢
    rw [hstep, hrec]
    simp [Nat.add_assoc, Nat.add_comm 1]

theorem addScreenElements_fresh (countBits : Nat) (t : Terminal) (reqs : List Registration)
    (hcap : reqs.length < 2 ^ countBits) :
    addScreenElements countBits t freshScreen reqs =
      { elements := reqs.map (Registration.element t), elementCount := reqs.length } := by
  have h := addScreenElements_eq countBits t reqs freshScreen rfl
    (by simp only [freshScreen]; omega)
  simpa [freshScreen] using h

theorem addScreenElements_wraps (countBits : Nat) (t : Terminal) (r : Registration) :
    (addScreenElements countBits t freshScreen
      (List.replicate (2 ^ countBits) r)).elementCount = 0 := by
  have hpos : 0 < 2 ^ countBits := Nat.pow_pos (by omega)
  obtain ⟨m, hm⟩ : ∃ m, 2 ^ countBits = m + 1 := ⟨2 ^ countBits - 1, by omega⟩
  rw [hm, List.replicate_succ']
  simp only [addScreenElements, List.foldl_append, List.foldl_cons, List.foldl_nil]
  have h := addScreenElements_fresh countBits t (List.replicate m r) (by simp; omega)
  simp only [addScreenElements] at h
  rw [h]
  simp only [addScreenElement, List.length_replicate]
  rw [← hm]
  exact Nat.mod_self _

/-- C4, as the code has it: on a fresh screen, as long as the number of calls
is below the capacity `2 ^ countBits` of the counter, after the first `k`
calls of a sequence the count is exactly `k` and the block holds exactly the
elements of the first `k` calls, in that order: each call adds one to the
count, puts its element at the next index and leaves the earlier ones as they
were. -/
theorem C4_registration_order (countBits : Nat) (t : Terminal) (reqs : List Registration)
    (hcap : reqs.length < 2 ^ countBits) (k : Nat) (hk : k ≤ reqs.length) :
    (addScreenElements countBits t freshScreen (reqs.take k)).elementCount = k
      ∧ (addScreenElements countBits t freshScreen (reqs.take k)).elements =
          (reqs.take k).map (Registration.element t) := by
  have hl : (reqs.take k).length = k := by simp [List.length_take]; omega
  rw [addScreenElements_fresh countBits t (reqs.take k) (by omega)]
  exact ⟨hl, rfl⟩

/-- C4, an instance: two registrations, all of them (`k = 2`), with a counter
of 8 bits. -/
theorem C4_registration_order_witness :
    ([plainRegistration, plainRegistration].length < 2 ^ 8
      ∧ 2 ≤ [plainRegistration, plainRegistration].length)
    ∧ (addScreenElements 8 exampleTerminal freshScreen
          ([plainRegistration, plainRegistration].take 2)).elementCount = 2
    ∧ (addScreenElements 8 exampleTerminal freshScreen
          ([plainRegistration, plainRegistration].take 2)).elements =
        ([plainRegistration, plainRegistration].take 2).map
          (Registration.element exampleTerminal) :=
  ⟨⟨by decide, by decide⟩,
    C4_registration_order 8 exampleTerminal [plainRegistration, plainRegistration]
      (by decide) 2 (by decide)⟩

/-- C4 as claimed fails when the counter wraps: with a counter of 8 bits (the
type of the loop indices) 256 registrations on a fresh screen leave a count
of 0, and for no width of the counter does the count equal the number of
calls for every sequence of calls. -/
theorem C4_counter_wraps_counterexample :
    (addScreenElements 8 exampleTerminal freshScreen
        (List.replicate 256 plainRegistration)).elementCount = 0
      ∧ ¬ ∃ countBits : Nat, ∀ reqs : List Registration,
          (addScreenElements countBits exampleTerminal freshScreen reqs).elementCount
            = reqs.length := by
  refine ⟨addScreenElements_wraps 8 exampleTerminal plainRegistration, ?_⟩
  rintro ⟨countBits, h⟩
  have h1 := h (List.replicate (2 ^ countBits) plainRegistration)
  rw [addScreenElements_wraps, List.length_replicate] at h1
  have hpos : 0 < 2 ^ countBits := Nat.pow_pos (by omega)
  omega

/-! ## Poll loop (C5) -/

theorem drawScreen_eq (s : screen_t)
    (hlen : s.elementCount ≤ s.elements.length) (hcnt : s.elementCount ≤ 255) :
    drawScreen s = some (expectedDraw s) := by
  unfold drawScreen expectedDraw
  apply forUInt8_from_zero _ _ _ hcnt
  intro j hj
  have hjl : j < s.elements.length := by omega
  rw [List.getElem?_eq_getElem hjl]
  generalize s.elements[j] = e
  obtain ⟨win, click, init⟩ := e
  cases init <;> rfl

/-- C6: on a screen whose count is within its block and within the range of
the loop index, `drawScreen` ends and its effects are those of
`expectedDraw`: the elements in index order, for each one the init callback
with the window of the element exactly when the callback is not null, then
the flush of that window. Calling it twice on the unchanged screen gives the
same sequence twice. -/
theorem C6_drawScreen_effects (s : screen_t)
    (hlen : s.elementCount ≤ s.elements.length) (hcnt : s.elementCount ≤ 255) :
    drawScreen s = some (expectedDraw s)
      ∧ (drawScreen s).bind (fun first => (drawScreen s).map (fun second => first ++ second))
          = some (expectedDraw s ++ expectedDraw s) := by
  rw [drawScreen_eq s hlen hcnt]
  exact ⟨rfl, rfl⟩

/-- C6, an instance: the debug screen of `initInterface`; its first element
has no init callback and is only flushed, its third one is painted by
`printFriendListWindow` and then flushed. -/
theorem C6_drawScreen_effects_witness :
    (initInterfaceScreen.elementCount ≤ initInterfaceScreen.elements.length
      ∧ initInterfaceScreen.elementCount ≤ 255)
    ∧ (drawScreen initInterfaceScreen = some (expectedDraw initInterfaceScreen)
      ∧ (drawScreen initInterfaceScreen).bind
            (fun first => (drawScreen initInterfaceScreen).map (fun second => first ++ second))
          = some (expectedDraw initInterfaceScreen ++ expectedDraw initInterfaceScreen))
    ∧ (expectedDraw initInterfaceScreen).take 4 =
        [Effect.wrefresh (some ⟨0, 1, 14, 63⟩), Effect.wrefresh (some ⟨16, 1, 14, 63⟩),
          Effect.initCall InitCallback.printFriendListWindow (some ⟨7, 68, 9, 29⟩),
          Effect.wrefresh (some ⟨7, 68, 9, 29⟩)] :=
  ⟨⟨by decide, by decide⟩,
    C6_drawScreen_effects initInterfaceScreen (by decide) (by decide), by decide⟩

/-! ## Shutdown (C7) -/

theorem drainSerial_zeros (k : Nat) :
    drainSerial (List.replicate k 0) = (List.replicate k (Effect.serialGetChar 0), false) := by
  induction k with
  | zero => rfl
  | succ k ih => simp [List.replicate_succ, drainSerial, ih]

theorem drainSerial_until (k ret : Nat) (rest : List Nat) (hret : ret ≠ 0) :
    drainSerial (List.replicate k 0 ++ ret :: rest) =
      (List.replicate k (Effect.serialGetChar 0) ++ [Effect.serialGetChar ret], true) := by
  induction k with
  | zero => simp [drainSerial, hret]
  | succ k ih => simp [List.replicate_succ, drainSerial, ih]

/-- C7: the effects of `endInterface`. When the serial driver answers `k`
reads with 0 and the next with a non-zero value, the handler performs, in
this order: the display teardown, the one terminate byte `e`, the `k + 1`
reads, the closing of the serial interface, the two messages and the exit
with `EXIT_FAILURE`, which is not 0. As long as every read answers 0 the
handler has done the teardown, the one terminate byte and the reads, and has
neither closed the serial interface nor exited. -/
theorem C7_endInterface_trace (idk : Int) (k ret : Nat) (rest : List Nat) (hret : ret ≠ 0) :
    endInterface idk (List.replicate k 0 ++ ret :: rest) =
        [Effect.endwin, Effect.serialPutChar 'e']
          ++ List.replicate k (Effect.serialGetChar 0)
          ++ [Effect.serialGetChar ret, Effect.exitUartStream, Effect.stderrProgramEnded,
              Effect.stdoutCya, Effect.exit EXIT_FAILURE]
      ∧ endInterface idk (List.replicate k 0) =
          [Effect.endwin, Effect.serialPutChar 'e'] ++ List.replicate k (Effect.serialGetChar 0)
      ∧ EXIT_FAILURE ≠ 0 := by
  refine ⟨?_, ?_, by decide⟩
  · simp [endInterface, drainSerial_until k ret rest hret]
  · simp [endInterface, drainSerial_zeros k]

/-- C7, an instance: two reads answer 0, the third answers 1. -/
theorem C7_endInterface_trace_witness :
    (1 : Nat) ≠ 0
    ∧ (endInterface 2 (List.replicate 2 0 ++ 1 :: []) =
        [Effect.endwin, Effect.serialPutChar 'e']
          ++ List.replicate 2 (Effect.serialGetChar 0)
          ++ [Effect.serialGetChar 1, Effect.exitUartStream, Effect.stderrProgramEnded,
              Effect.stdoutCya, Effect.exit EXIT_FAILURE]
      ∧ endInterface 2 (List.replicate 2 0) =
          [Effect.endwin, Effect.serialPutChar 'e'] ++ List.replicate 2 (Effect.serialGetChar 0)
      ∧ EXIT_FAILURE ≠ 0) :=
  ⟨by decide, C7_endInterface_trace 2 2 1 [] (by decide)⟩

/-! ## Mode switch (C8) -/

/-- C8, as the code has it: `switchScreenButtonPressed` is guarded by the
mode flag. The first of two invocations clears and refreshes the display
exactly when debug mode was on, and leaves the flag at 0; the second
invocation finds the flag at 0, has no effect on the display and leaves the
flag at 0. The flag after two invocations is the flag after one. -/
theorem C8_switch_twice (debugMode row col row2 col2 : Nat) :
    (switchScreenButtonPressed debugMode row col).1 = 0
      ∧ (switchScreenButtonPressed debugMode row col).2 =
          (if debugMode ≠ 0 then [Effect.clear, Effect.refresh] else [])
      ∧ (switchScreenButtonPressed (switchScreenButtonPressed debugMode row col).1 row2 col2).1
          = (switchScreenButtonPressed debugMode row col).1
      ∧ (switchScreenButtonPressed (switchScreenButtonPressed debugMode row col).1 row2 col2).2
          = [] := by
  unfold switchScreenButtonPressed
  by_cases h : debugMode = 0 <;> simp [h]

/-- C8 as claimed fails: starting in debug mode, the first invocation clears
and refreshes the display and the second one does nothing. -/
theorem C8_second_switch_counterexample :
    (switchScreenButtonPressed 1 0 0).2 = [Effect.clear, Effect.refresh]
      ∧ (switchScreenButtonPressed (switchScreenButtonPressed 1 0 0).1 0 0).2 = [] := by
  decide

/-- C9, as the code has it: `addScreenElement` has no failure path. When
`newwin` returns no window, a call on a screen whose block holds exactly its
registered elements, below the capacity of the counter, still appends one
element, with a null window and the two callbacks of the call, raises the
count by one, leaves the earlier elements as they were and returns the new
element. -/
theorem C9_null_window_registered (countBits : Nat) (t : Terminal) (screen : screen_t)
    (r : Registration)
    (hnull : newwin t r.height.val r.width.val (toInt32 r.startRow.val)
      (toInt32 r.startCol.val) = none)
    (hlen : screen.elements.length = screen.elementCount)
    (hcap : screen.elementCount + 1 < 2 ^ countBits) :
    (addScreenElement countBits t screen r.startRow r.startCol r.height r.width
        r.clickCallback r.initCallback).1 =
      { elements := screen.elements ++ [⟨none, r.clickCallback, r.initCallback⟩],
        elementCount := screen.elementCount + 1 }
    ∧ (addScreenElement countBits t screen r.startRow r.startCol r.height r.width
        r.clickCallback r.initCallback).2 = some ⟨none, r.clickCallback, r.initCallback⟩ := by
  have hel : r.element t = ⟨none, r.clickCallback, r.initCallback⟩ := by
    simp only [Registration.element, hnull]
  constructor
  · rw [addScreenElement_append countBits t screen r hlen hcap, hel]
  · simp only [addScreenElement]
    rw [← hlen, realloc_of_length, Nat.mod_eq_of_lt (by omega), hnull]
    simp

/-- C9, an instance: curses cannot create a window, and the request is
registered on the fresh screen all the same. -/
theorem C9_null_window_registered_witness :
    (newwin unreadyTerminal plainRegistration.height.val plainRegistration.width.val
        (toInt32 plainRegistration.startRow.val) (toInt32 plainRegistration.startCol.val) = none
      ∧ freshScreen.elements.length = freshScreen.elementCount
      ∧ freshScreen.elementCount + 1 < 2 ^ 8)
    ∧ ((addScreenElement 8 unreadyTerminal freshScreen plainRegistration.startRow
          plainRegistration.startCol plainRegistration.height plainRegistration.width
          plainRegistration.clickCallback plainRegistration.initCallback).1 =
        { elements := freshScreen.elements
            ++ [⟨none, plainRegistration.clickCallback, plainRegistration.initCallback⟩],
          elementCount := freshScreen.elementCount + 1 }
      ∧ (addScreenElement 8 unreadyTerminal freshScreen plainRegistration.startRow
          plainRegistration.startCol plainRegistration.height plainRegistration.width
          plainRegistration.clickCallback plainRegistration.initCallback).2 =
        some ⟨none, plainRegistration.clickCallback, plainRegistration.initCallback⟩) :=
  ⟨⟨by decide, by decide, by decide⟩,
    C9_null_window_registered 8 unreadyTerminal freshScreen plainRegistration
      (by decide) (by decide) (by decide)⟩

/-- C9 as claimed fails: with curses unable to create a window, `newwin`
returns none, and `addScreenElement` on the fresh screen gives a screen of
one element, whose window is null. -/
theorem C9_failed_newwin_counterexample :
    newwin unreadyTerminal 4 8 (toInt32 0) (toInt32 0) = none
      ∧ (addScreenElement 8 unreadyTerminal freshScreen 0 0 4 8 none none).1 =
          { elements := [⟨none, none, none⟩], elementCount := 1 }
      ∧ (addScreenElement 8 unreadyTerminal freshScreen 0 0 4 8 none none).1 ≠ freshScreen := by
  decide

/-! ## Chat input line (C10) -/

theorem storeIndices_append (a b : List ChatEffect) :
    storeIndices (a ++ b) = storeIndices a ++ storeIndices b := by
  induction a with
  | nil => rfl
  | cons e a ih => cases e <;> simp [storeIndices, ih]

/-- One character: the write position stays within 0 .. 38, a typed character
is stored below index 38, and the terminating zero at an index up to 38. -/
theorem interpretNewChar_bounds (s : ChatState) (c : Nat)
    (hp : s.bufferPtr ≤ INPUT_BUFFER_LENGTH) :
    (interpretNewChar s c).1.bufferPtr ≤ INPUT_BUFFER_LENGTH
      ∧ ∀ i ∈ storeIndices (interpretNewChar s c).2,
          i ≤ INPUT_BUFFER_LENGTH ∧ (c ≠ 13 → i < INPUT_BUFFER_LENGTH) := by
  unfold interpretNewChar
  unfold INPUT_BUFFER_LENGTH at *
  split
  · split
    · refine ⟨by simp only; omega, ?_⟩
      intro i hi
      simp [storeIndices] at hi
    · refine ⟨hp, ?_⟩
      intro i hi
      simp [storeIndices] at hi
  · split
    · refine ⟨by simp, ?_⟩
      intro i hi
      have hcall : ∀ call : ChatEffect,
          (call = ChatEffect.runCommand (cString (s.inputBuffer.set s.bufferPtr 0) 1)
            ∨ call = ChatEffect.send (cString (s.inputBuffer.set s.bufferPtr 0) 0)) →
          storeIndices [ChatEffect.store s.bufferPtr 0, ChatEffect.newline, call]
            = [s.bufferPtr] := by
        intro call h
        rcases h with rfl | rfl <;> rfl
      rw [hcall _ (by split <;> simp)] at hi
      simp only [List.mem_singleton] at hi
      subst hi
      exact ⟨hp, fun h => absurd ‹c = 13› h⟩
    · split
      · rename_i hcond
        refine ⟨by simp only; omega, ?_⟩
        intro i hi
        simp only [storeIndices, List.mem_singleton] at hi
        subst hi
        exact ⟨by omega, fun _ => by omega⟩
      · refine ⟨hp, ?_⟩
        intro i hi
        simp [storeIndices] at hi

/-- Any sequence of characters from a state with the write position within
0 .. 38: the position stays there and every store is at an index up to 38. -/
theorem interpretChars_bounds (cs : List Nat) :
    ∀ s : ChatState, s.bufferPtr ≤ INPUT_BUFFER_LENGTH →
      (interpretChars s cs).1.bufferPtr ≤ INPUT_BUFFER_LENGTH
        ∧ ∀ i ∈ storeIndices (interpretChars s cs).2, i ≤ INPUT_BUFFER_LENGTH := by
  induction cs with
  | nil =>
    intro s hp
    exact ⟨hp, by intro i hi; simp [interpretChars, storeIndices] at hi⟩
  | cons c cs ih =>
    intro s hp
    obtain ⟨h1, h2⟩ := interpretNewChar_bounds s c hp
    obtain ⟨h3, h4⟩ := ih _ h1
    refine ⟨h3, ?_⟩
    intro i hi
    simp only [interpretChars, storeIndices_append, List.mem_append] at hi
    rcases hi with hi | hi
    · exact (h2 i hi).1
    · exact h4 i hi

/-- C10 at the failing input: after a command of 38 characters (a slash and
37 letters) the carriage return stores the terminating zero at index 38, one
past the last cell of the 38-byte array, so the stores of the run are at the
indices 0 to 38 and not all below `INPUT_BUFFER_LENGTH`; called after the
same 38 characters, `getCurrentInputBuffer` stores at index 38 as well. -/
theorem C10_terminator_store_past_end :
    storeIndices (interpretChars ChatState.init longCommandLine).2 = List.range 39
      ∧ ¬ (∀ i ∈ storeIndices (interpretChars ChatState.init longCommandLine).2,
            i < INPUT_BUFFER_LENGTH)
      ∧ storeIndices (getCurrentInputBuffer (interpretChars ChatState.init longCommand).1).2.1
          = [38] := by
  decide

/-! ## Chat messages (C11) -/

end SensorNetworks
